import Mathlib

/-!
Shallow embedding of the `uar-data-fetcher` repository: a data-reconciliation
utility that joins payment orders (Modern Treasury) with ACH transfers
(Increase), and enriches employer/worker records from a GraphQL API (Salsa)
and a Neo4j graph database, writing the merged results to CSV files.

External network calls are modelled as oracle parameters (either total
functions for responses or `Except`-valued results when the call may throw).
JavaScript runtime errors and thrown `Error` objects are modelled by the
`JsError` type; JavaScript string truthiness (`null`/`""` are falsy) is
modelled by `jsTruthy`/`jsOr`.
-/

deriving instance DecidableEq for Except

namespace UarDataFetcher

/-- A JavaScript exception: either a runtime `TypeError` (e.g. a property
access on `null`) or an explicitly thrown `Error(msg)`. -/
inductive JsError where
  | typeError (msg : String)
  | error (msg : String)
deriving DecidableEq, Repr

/-- JavaScript `a || b` for strings: the empty string is falsy. -/
def jsOr (s fallback : String) : String :=
  if s = "" then fallback else s

/-- JavaScript truthiness of a `string | null` value: `null` and `""` are
falsy. -/
def jsTruthy (s : Option String) : Bool :=
  s.getD "" != ""

/-! ## Modern Treasury integration (`src/integrations/modern-treasury.ts`) -/

/-- `PaymentReference` from `modern-treasury.ts`. -/
structure PaymentReference where
  id : String
  object : String
  live_mode : Bool
  reference_number : String
  reference_number_type : String
  referenceable_id : String
  referenceable_type : String
  created_at : String
  updated_at : String
deriving DecidableEq, Repr

/-- `ModernTreasuryPaymentOrder` from `modern-treasury.ts`.  The JS `number`
amount is modelled as an integer. -/
structure ModernTreasuryPaymentOrder where
  id : String
  object : String
  live_mode : Bool
  type : String
  amount : Int
  direction : String
  effective_date : String
  reference_numbers : List PaymentReference
deriving DecidableEq, Repr

/-- `extractACHTransferId` from `modern-treasury.ts`:
`reference_numbers.find(ref => ref.reference_number_type === 'bnk_dev_transfer_id')`
followed by `reference?.reference_number || null`.  Note the JS `|| null`:
a found reference whose `reference_number` is the empty string yields `null`. -/
def extractACHTransferId (paymentOrder : ModernTreasuryPaymentOrder) : Option String :=
  match paymentOrder.reference_numbers.find?
      (fun ref => ref.reference_number_type == "bnk_dev_transfer_id") with
  | some reference => if reference.reference_number = "" then none else some reference.reference_number
  | none => none

/-! ## Increase integration (`src/integrations/increase.ts`) -/

/-- `IncreaseACHTransfer` from `increase.ts`. -/
structure IncreaseACHTransfer where
  id : String
  amount : Int
  transaction_id : String
deriving DecidableEq, Repr

/-- `fetchACHTransfer` from `increase.ts`, with the credential
(`process.env.INCREASE_API_KEY`) and the network response as parameters.
The second component counts the network calls performed (0 or 1): the
credential check happens before any call.  The response validation
(`!response.data || !response.data.transaction_id`) is modelled by the
`transaction_id = ""` check. -/
def fetchACHTransferChecked (apiKey : Option String)
    (net : Except JsError IncreaseACHTransfer) :
    Except JsError IncreaseACHTransfer × Nat :=
  if jsTruthy apiKey = false then
    (.error (.error "INCREASE_API_KEY environment variable is required"), 0)
  else
    match net with
    | .error e => (.error e, 1)
    | .ok data =>
        if data.transaction_id = "" then
          (.error (.error "Invalid response format from Increase API"), 1)
        else (.ok data, 1)

/-! ## Increase-transactions service (`src/services/increase-transaction.ts`) -/

/-- One row of `output/increase-transactions.csv`, as pushed onto
`allRecords` in `getIncreaseTransactions`. -/
structure IncreaseCsvRecord where
  payroll_run_id : String
  direction : String
  effective_date : String
  amount : Int
  transaction_id : String
deriving DecidableEq, Repr

/-- Body of the inner loop of `getIncreaseTransactions`: derive the ACH
transfer id from the payment order; if truthy, fetch the Increase data and
append one record; otherwise skip (append nothing). -/
def processPaymentOrder (payrollRunId : String)
    (fetchACHTransfer : String → IncreaseACHTransfer)
    (order : ModernTreasuryPaymentOrder) : List IncreaseCsvRecord :=
  let achTransferId := extractACHTransferId order
  if jsTruthy achTransferId then
    let increaseData := fetchACHTransfer (achTransferId.getD "")
    [{ payroll_run_id := payrollRunId
       direction := order.direction
       effective_date := order.effective_date
       amount := order.amount
       transaction_id := increaseData.transaction_id }]
  else []

/-- The accumulated `allRecords` of `getIncreaseTransactions`: the outer loop
runs over `payrollRunIds` in order, the inner loop over the fetched payment
orders in order, appending the records produced for each order. -/
def getIncreaseTransactionsRecords (payrollRunIds : List String)
    (fetchPaymentOrders : String → List ModernTreasuryPaymentOrder)
    (fetchACHTransfer : String → IncreaseACHTransfer) : List IncreaseCsvRecord :=
  payrollRunIds.flatMap (fun payrollRunId =>
    (fetchPaymentOrders payrollRunId).flatMap
      (processPaymentOrder payrollRunId fetchACHTransfer))

/-- The fixed header row of `output/increase-transactions.csv`. -/
def increaseCsvHeader : String :=
  "Payroll run ID,Direction,Transaction date,Amount,Transaction ID"

/-- One serialized CSV row for an accumulated record. -/
def renderIncreaseRecord (r : IncreaseCsvRecord) : String :=
  r.payroll_run_id ++ "," ++ r.direction ++ "," ++ r.effective_date ++ ","
    ++ toString r.amount ++ "," ++ r.transaction_id

/-- The CSV file contents written by the record sink: the header row followed
by one row per accumulated record, in order. -/
def renderIncreaseCsv (records : List IncreaseCsvRecord) : String :=
  String.intercalate "\n" (increaseCsvHeader :: records.map renderIncreaseRecord)

/-! ## Salsa GraphQL integration (`src/integrations/salsa-graphql.ts`) -/

/-- `SalsaGraphQLResponse<T>` from `salsa-graphql.ts`.  The `data` field is
declared non-null in TypeScript but the code guards `!response.data.data`,
so it is modelled as optional; `errors` is modelled by its list of
messages. -/
structure SalsaGraphQLResponse (α : Type) where
  data : Option α
  errors : List String
deriving DecidableEq, Repr

/-- `executeGraphQLQuery` from `salsa-graphql.ts`, with the credential
(`process.env.SALSA_AUTH_TOKEN`) and the network response as parameters.
The second component counts the network calls performed (0 or 1): the
token check happens before the `axios.post`.  After the call, a non-empty
`errors` array or a missing `data` field raises. -/
def executeGraphQLQueryChecked (α : Type) (authToken : Option String)
    (net : Except JsError (SalsaGraphQLResponse α)) : Except JsError α × Nat :=
  if jsTruthy authToken = false then
    (.error (.error "SALSA_API_KEY environment variable is required"), 0)
  else
    match net with
    | .error e => (.error e, 1)
    | .ok response =>
        if response.errors ≠ [] then
          (.error (.error ("Salsa GraphQL errors: " ++ String.intercalate ", " response.errors)), 1)
        else
          match response.data with
          | none => (.error (.error "Invalid response format from Salsa API"), 1)
          | some d => (.ok d, 1)

/-- The `type` object of a tax identifier in `EmployerApiResponse`. -/
structure TaxIdType where
  id : String
  name : String
deriving DecidableEq, Repr

/-- A tax identifier in `EmployerApiResponse`; `value` is `string | null`. -/
structure TaxIdentifier where
  id : String
  type : TaxIdType
  value : Option String
deriving DecidableEq, Repr

/-- One entry of `taxesSetupByJurisdiction` in `EmployerApiResponse`. -/
structure Jurisdiction where
  taxIdentifiers : List TaxIdentifier
deriving DecidableEq, Repr

/-- The `address` object of a filing address in `EmployerApiResponse`. -/
structure ApiAddress where
  addressLine1 : String
  addressLine2 : String
  administrativeArea : String
  locality : String
  postalCode : String
deriving DecidableEq, Repr

/-- The `filingAddress` object in `EmployerApiResponse`. -/
structure FilingAddress where
  address : ApiAddress
deriving DecidableEq, Repr

/-- The `employer` object of `EmployerApiResponse`.  `filingAddress` is
modelled as optional because the code accesses it with optional chaining
(`response.employer.filingAddress?.address`). -/
structure EmployerObj where
  id : String
  businessName : String
  legalName : String
  taxesSetupByJurisdiction : List Jurisdiction
  filingAddress : Option FilingAddress
deriving DecidableEq, Repr

/-- `EmployerApiResponse` from `salsa-graphql.ts`.  The `employer` field is
declared non-null in TypeScript, but at runtime GraphQL returns
`{ employer: null }` when no entity matches the queried id, so it is
modelled as optional. -/
structure EmployerApiResponse where
  employer : Option EmployerObj
deriving DecidableEq, Repr

/-- The `EmployerInfo` domain model from `salsa-graphql.ts`.  `addressLine2`
is optional in the TypeScript interface and is left absent (`undefined`) by
`formatAddress` when the filing address is missing. -/
structure EmployerInfo where
  employerId : String
  businessName : String
  legalName : String
  ein : String
  addressLine1 : String
  addressLine2 : Option String
  city : String
  state : String
  postalCode : String
deriving DecidableEq, Repr

/-- Inner loop of `extractEin`: scan `taxIdentifiers` for the first entry
with `type.id === "key:taxid:us:fein"` and a truthy (non-null, non-empty)
`value`; `break` on the first hit. -/
def findEinInTaxIdentifiers : List TaxIdentifier → String
  | [] => ""
  | taxId :: rest =>
      match taxId.value with
      | some v =>
          if taxId.type.id = "key:taxid:us:fein" ∧ v ≠ "" then v
          else findEinInTaxIdentifiers rest
      | none => findEinInTaxIdentifiers rest

/-- `extractEin` from `salsa-graphql.ts`: scan jurisdictions in order,
breaking out of the outer loop as soon as a truthy EIN has been found;
return `""` when none is found. -/
def extractEin : List Jurisdiction → String
  | [] => ""
  | jurisdiction :: rest =>
      let ein := findEinInTaxIdentifiers jurisdiction.taxIdentifiers
      if ein ≠ "" then ein else extractEin rest

/-- Result shape of `formatAddress` in `salsa-graphql.ts`: `addressLine2` is
an optional field, and the `!address` branch returns an object that omits
it entirely. -/
structure FormattedAddress where
  addressLine1 : String
  addressLine2 : Option String
  city : String
  state : String
  postalCode : String
deriving DecidableEq, Repr

/-- `formatAddress` from `salsa-graphql.ts`.  When the address is absent the
returned object has only `addressLine1`/`city`/`state`/`postalCode` set to
`""` and no `addressLine2` at all (modelled as `none`); otherwise all fields
come from the address, with `administrativeArea` upper-cased. -/
def formatAddress (address : Option ApiAddress) : FormattedAddress :=
  match address with
  | none =>
      { addressLine1 := ""
        addressLine2 := none
        city := ""
        state := ""
        postalCode := "" }
  | some address =>
      { addressLine1 := address.addressLine1
        addressLine2 := some address.addressLine2
        city := address.locality
        state := address.administrativeArea.toUpper
        postalCode := address.postalCode }

/-- `fetchEmployerById` from `salsa-graphql.ts`, parameterized by the result
of `executeGraphQLQuery`.  The code reads
`response.employer.taxesSetupByJurisdiction` without a null check, so a
`null` employer raises a runtime `TypeError` (there is no explicit
"not found" check, unlike `fetchWorkerById`). -/
def fetchEmployerById (execResult : Except JsError EmployerApiResponse) :
    Except JsError EmployerInfo :=
  match execResult with
  | .error e => .error e
  | .ok response =>
      match response.employer with
      | none => .error (.typeError "Cannot read properties of null")
      | some employer =>
          let ein := extractEin employer.taxesSetupByJurisdiction
          let addressInfo := formatAddress (employer.filingAddress.map (·.address))
          .ok { employerId := employer.id
                businessName := employer.businessName
                legalName := employer.legalName
                ein := ein
                addressLine1 := addressInfo.addressLine1
                addressLine2 := addressInfo.addressLine2
                city := addressInfo.city
                state := addressInfo.state
                postalCode := addressInfo.postalCode }

/-! ## Employer-info service (`src/services/employer-info.ts`) -/

/-- One row of `output/employer-business-info.csv` as pushed in
`getEmployerInfo`.  `address_line2` is assigned `employerInfo.addressLine2`
with no `|| ""` fallback, so it may be `undefined` (modelled as `none`). -/
structure EmployerCsvRecord where
  employer_id : String
  business_name : String
  ein : String
  address_line1 : String
  address_line2 : Option String
  city : String
  state : String
  postal_code : String
deriving DecidableEq, Repr

/-- The record pushed onto `allRecords` in `getEmployerInfo` for one fetched
employer. -/
def employerCsvRecord (employerInfo : EmployerInfo) : EmployerCsvRecord :=
  { employer_id := employerInfo.employerId
    business_name := employerInfo.businessName
    ein := employerInfo.ein
    address_line1 := employerInfo.addressLine1
    address_line2 := employerInfo.addressLine2
    city := employerInfo.city
    state := employerInfo.state
    postal_code := employerInfo.postalCode }

/-- The loop of `getEmployerInfo`: fetch each employer in order and
accumulate records; any error is re-thrown (`catch { throw error }`),
aborting the run before the CSV file is created. -/
def getEmployerInfoRecords (employerIds : List String)
    (exec : String → Except JsError EmployerApiResponse) :
    Except JsError (List EmployerCsvRecord) :=
  match employerIds with
  | [] => .ok []
  | employerId :: rest =>
      match fetchEmployerById (exec employerId) with
      | .error e => .error e
      | .ok employerInfo =>
          match getEmployerInfoRecords rest exec with
          | .error e => .error e
          | .ok records => .ok (employerCsvRecord employerInfo :: records)

/-- Observable outcome of one `getEmployerInfo` run: the file is written
(with all accumulated records) only when the whole loop succeeds; an error
aborts the run before `createObjectCsvWriter`, so no file — not even a
partial one — is produced. -/
structure EmployerInfoRun where
  fileWritten : Option (List EmployerCsvRecord)
  raisedError : Option JsError
deriving DecidableEq, Repr

/-- `getEmployerInfo` from `employer-info.ts` as a run outcome. -/
def getEmployerInfo (employerIds : List String)
    (exec : String → Except JsError EmployerApiResponse) : EmployerInfoRun :=
  match getEmployerInfoRecords employerIds exec with
  | .ok records => { fileWritten := some records, raisedError := none }
  | .error e => { fileWritten := none, raisedError := some e }

/-! ## Salsa Neo4j integration (`src/integrations/salsa-neo4j.ts`) -/

/-- `AuthorizerInfo` from `salsa-neo4j.ts`.  Neo4j property values may be
null at runtime (the callers guard with `|| ""`); null is conflated with
the equally-falsy empty string. -/
structure AuthorizerInfo where
  entityId : String
  authorizerFirstName : String
  authorizerLastName : String
  authorizerEmail : String
  clientIpAddress : String
deriving DecidableEq, Repr

/-- `EmployerBankAccount` from `salsa-neo4j.ts`.  As with `AuthorizerInfo`,
nullable Neo4j properties are conflated with the empty string. -/
structure EmployerBankAccount where
  id : String
  employerId : String
  bankName : String
  accountNumber : String
  routingNumber : String
  partyName : String
  createdDate : String
  isDeleted : Bool
deriving DecidableEq, Repr

/-- A JS `Map<string, AuthorizerInfo>` as an insertion-ordered association
list. -/
def AuthorizerMap : Type := List (String × AuthorizerInfo)

instance : DecidableEq AuthorizerMap := by
  unfold AuthorizerMap
  infer_instance

/-- `Map.prototype.set`: overwrite in place when the key exists, append
otherwise. -/
def mapSet : AuthorizerMap → String → AuthorizerInfo → AuthorizerMap
  | [], k, v => [(k, v)]
  | (k', v') :: rest, k, v =>
      if k' = k then (k, v) :: rest else (k', v') :: mapSet rest k v

/-- `Map.prototype.has`. -/
def mapHas (m : AuthorizerMap) (k : String) : Bool :=
  m.any (fun p => p.1 == k)

/-- `Map.prototype.get` (`undefined` when absent). -/
def mapGet (m : AuthorizerMap) (k : String) : Option AuthorizerInfo :=
  (m.find? (fun p => p.1 == k)).map (·.2)

/-- The key set of the map, in insertion order. -/
def mapKeys (m : AuthorizerMap) : List String :=
  m.map (·.1)

/-- The loop body of `fetchAuthorizerInfoBatch`: insert a query result into
the map only when its `entityId` is truthy. -/
def insertAuthorizer (m : AuthorizerMap) (authInfo : AuthorizerInfo) : AuthorizerMap :=
  if authInfo.entityId != "" then mapSet m authInfo.entityId authInfo else m

/-- The map-building loop of `fetchAuthorizerInfoBatch` over the records the
Cypher query returned. -/
def buildAuthorizerMap (results : List AuthorizerInfo) : AuthorizerMap :=
  results.foldl insertAuthorizer []

/-- `fetchAuthorizerInfoBatch` from `salsa-neo4j.ts`, parameterized by the
result of `executeNeo4jQuery`.  An empty id list short-circuits to an empty
map; a query error is caught and degrades to an empty map instead of
propagating.  Note that the code keys the map by whatever `entityId`s the
query returned, without re-filtering against `employerBankAccountIds`. -/
def fetchAuthorizerInfoBatch (employerBankAccountIds : List String)
    (queryResult : Except JsError (List AuthorizerInfo)) : AuthorizerMap :=
  if employerBankAccountIds.length = 0 then []
  else
    match queryResult with
    | .error _ => []
    | .ok results => buildAuthorizerMap results

/-- `fetchAuthorizerInfo` from `salsa-neo4j.ts`, parameterized by the result
of `executeNeo4jQuery`: `null` when the query returned no records, the
first record otherwise; a query error is caught and degrades to `null`. -/
def fetchAuthorizerInfo (queryResult : Except JsError (List AuthorizerInfo)) :
    Option AuthorizerInfo :=
  match queryResult with
  | .error _ => none
  | .ok results => results.head?

/-- The Neo4j driver handle created by `driver(uri, auth.basic(...))`. -/
structure Neo4jDriver where
  uri : String
  username : String
  password : String
deriving DecidableEq, Repr

/-- `initializeDriver` from `salsa-neo4j.ts`: return the cached process-wide
driver if present; otherwise read the configuration from the environment
(with defaults for URI and username, `""` for a missing password) and fail
when the password is falsy, before any driver is created.  Returns the
driver together with the updated cache. -/
def initializeDriver (cached : Option Neo4jDriver)
    (uriEnv usernameEnv passwordEnv : Option String) :
    Except JsError (Neo4jDriver × Option Neo4jDriver) :=
  match cached with
  | some d => .ok (d, some d)
  | none =>
      let password := passwordEnv.getD ""
      if password = "" then
        .error (.error "NEO4J_PASSWORD environment variable is required")
      else
        let d : Neo4jDriver :=
          { uri := jsOr (uriEnv.getD "") "bolt://localhost:7687"
            username := jsOr (usernameEnv.getD "") "neo4j"
            password := password }
        .ok (d, some d)

/-- `executeNeo4jQuery` from `salsa-neo4j.ts`, with the session run modelled
by the `net` parameter.  The second component counts network calls (0 or
1): `initializeDriver` runs before any session is opened, so a missing
password fails with zero calls. -/
def executeNeo4jQueryChecked (α : Type) (cached : Option Neo4jDriver)
    (uriEnv usernameEnv passwordEnv : Option String)
    (net : Except JsError (List α)) : Except JsError (List α) × Nat :=
  match initializeDriver cached uriEnv usernameEnv passwordEnv with
  | .error e => (.error e, 0)
  | .ok _ => (net, 1)

/-! ## Employer-bank-info service (`src/services/employer-bank-info.ts`) -/

/-- One row of `output/employer-bank-info.csv` as pushed in
`getEmployerBankInfo`. -/
structure BankCsvRecord where
  employer_id : String
  bank_name : String
  account_number : String
  routing_number : String
  party_name : String
  authorizer_first_name : String
  authorizer_last_name : String
  authorizer_email : String
  client_ip : String
  id : String
deriving DecidableEq, Repr

/-- The per-account body of `getEmployerBankInfo`: the four authorizer
variables start as `""`, are filled from the batch map when
`account.id && authorizerInfoMap.has(account.id)`, and the pushed record
substitutes the literal string `"null"` for any still-falsy authorizer
field (`authorizerFirstName || "null"`, etc.). -/
def processBankAccount (authorizerInfoMap : AuthorizerMap)
    (account : EmployerBankAccount) : BankCsvRecord :=
  let authInfo : Option AuthorizerInfo :=
    if account.id != "" && mapHas authorizerInfoMap account.id then
      mapGet authorizerInfoMap account.id
    else none
  let authorizerFirstName :=
    match authInfo with
    | some a => jsOr a.authorizerFirstName ""
    | none => ""
  let authorizerLastName :=
    match authInfo with
    | some a => jsOr a.authorizerLastName ""
    | none => ""
  let authorizerEmail :=
    match authInfo with
    | some a => jsOr a.authorizerEmail ""
    | none => ""
  let clientIp :=
    match authInfo with
    | some a => jsOr a.clientIpAddress ""
    | none => ""
  { employer_id := account.employerId
    bank_name := jsOr account.bankName ""
    account_number := jsOr account.accountNumber ""
    routing_number := jsOr account.routingNumber ""
    party_name := jsOr account.partyName ""
    authorizer_first_name := jsOr authorizerFirstName "null"
    authorizer_last_name := jsOr authorizerLastName "null"
    authorizer_email := jsOr authorizerEmail "null"
    client_ip := jsOr clientIp "null"
    id := account.id }

/-- The per-employer iteration of `getEmployerBankInfo`: fetch the bank
accounts (an error is caught and the employer skipped), skip employers with
no accounts, batch-fetch authorizer info for the truthy account ids, and
push one record per bank account. -/
def processEmployerBankAccounts
    (fetchBank : String → Except JsError (List EmployerBankAccount))
    (batchQuery : List String → Except JsError (List AuthorizerInfo))
    (employerId : String) : List BankCsvRecord :=
  match fetchBank employerId with
  | .error _ => []
  | .ok bankAccounts =>
      if bankAccounts.length = 0 then []
      else
        let bankAccountIds := (bankAccounts.filter (fun account => account.id != "")).map (·.id)
        let authorizerInfoMap :=
          if bankAccountIds.length > 0 then
            fetchAuthorizerInfoBatch bankAccountIds (batchQuery bankAccountIds)
          else []
        bankAccounts.map (processBankAccount authorizerInfoMap)

/-- Observable outcome of one `getEmployerBankInfo` run: whether a CSV file
was written (and with which records) and whether the Neo4j connection was
closed (the `finally` block always closes it). -/
structure BankInfoRun where
  fileWritten : Option (List BankCsvRecord)
  connectionClosed : Bool
deriving DecidableEq, Repr

/-- `getEmployerBankInfo` from `employer-bank-info.ts` as a run outcome:
when zero records accumulate across all employers, the function returns
before `createObjectCsvWriter`, so no file (not even a header-only one) is
produced; the connection is closed in every case. -/
def getEmployerBankInfo (employerIds : List String)
    (fetchBank : String → Except JsError (List EmployerBankAccount))
    (batchQuery : List String → Except JsError (List AuthorizerInfo)) : BankInfoRun :=
  let allRecords := employerIds.flatMap (processEmployerBankAccounts fetchBank batchQuery)
  if allRecords.length = 0 then
    { fileWritten := none, connectionClosed := true }
  else
    { fileWritten := some allRecords, connectionClosed := true }

/-! ## Worker-bank-info service (`src/services/worker-bank-info.ts`) -/

/-- A worker bank-account record as returned by `fetchWorkerBankAccounts`. -/
structure WorkerBankAccount where
  employerId : String
  workerId : String
  bankName : String
  accountNumber : String
  routingNumber : String
  partyName : String
  createdDate : String
  isDeleted : Bool
deriving DecidableEq, Repr

/-- One row of `output/worker-bank-info.csv`. -/
structure WorkerBankCsvRecord where
  employer_id : String
  worker_id : String
  bank_name : String
  account_number : String
  routing_number : String
  party_name : String
  is_deleted : String
  created_date : String
deriving DecidableEq, Repr

/-- The record mapping inside `getWorkerBankInfo`. -/
def mapWorkerBankRecord (account : WorkerBankAccount) : WorkerBankCsvRecord :=
  { employer_id := jsOr account.employerId ""
    worker_id := jsOr account.workerId ""
    bank_name := jsOr account.bankName ""
    account_number := jsOr account.accountNumber ""
    routing_number := jsOr account.routingNumber ""
    party_name := jsOr account.partyName ""
    is_deleted := if account.isDeleted then "Yes" else "No"
    created_date := jsOr account.createdDate "" }

/-- Observable outcome of one `getWorkerBankInfo` run. -/
structure WorkerBankRun where
  fileWritten : Option (List WorkerBankCsvRecord)
  connectionClosed : Bool
  raisedError : Option JsError
deriving DecidableEq, Repr

/-- `getWorkerBankInfo` from `worker-bank-info.ts` as a run outcome,
parameterized by the result of `fetchWorkerBankAccounts`: an empty fetch
returns early with no file; an error is re-thrown; the `finally` block
closes the Neo4j connection in every case. -/
def getWorkerBankInfo (fetchResult : Except JsError (List WorkerBankAccount)) :
    WorkerBankRun :=
  match fetchResult with
  | .error e =>
      { fileWritten := none, connectionClosed := true, raisedError := some e }
  | .ok workerBankAccounts =>
      if workerBankAccounts.length = 0 then
        { fileWritten := none, connectionClosed := true, raisedError := none }
      else
        { fileWritten := some (workerBankAccounts.map mapWorkerBankRecord)
          connectionClosed := true
          raisedError := none }

/-! ## Helper lemmas -/

/-- A successfully extracted ACH transfer id is never the empty string
(the JS `|| null` coerces an empty reference number to `null`). -/
theorem extractACHTransferId_ne_empty {order : ModernTreasuryPaymentOrder}
    {achTransferId : String}
    (h : extractACHTransferId order = some achTransferId) : achTransferId ≠ "" := by
  unfold extractACHTransferId at h
  cases hf : order.reference_numbers.find?
      (fun ref => ref.reference_number_type == "bnk_dev_transfer_id") with
  | none => rw [hf] at h; cases h
  | some reference =>
      rw [hf] at h
      by_cases he : reference.reference_number = ""
      · simp [he] at h
      · simp only [if_neg he, Option.some.injEq] at h
        exact h ▸ he

/-- `processPaymentOrder` on an order with a successfully extracted transfer
id yields exactly the one record built from the order and the fetched
transfer. -/
theorem processPaymentOrder_some {order : ModernTreasuryPaymentOrder}
    {achTransferId : String} (payrollRunId : String)
    (fetchACHTransfer : String → IncreaseACHTransfer)
    (h : extractACHTransferId order = some achTransferId) :
    processPaymentOrder payrollRunId fetchACHTransfer order =
      [{ payroll_run_id := payrollRunId
         direction := order.direction
         effective_date := order.effective_date
         amount := order.amount
         transaction_id := (fetchACHTransfer achTransferId).transaction_id }] := by
  have hne : achTransferId ≠ "" := extractACHTransferId_ne_empty h
  unfold processPaymentOrder
  rw [h]
  simp [jsTruthy, hne]

/-- `processPaymentOrder` on an order with no extractable transfer id yields
no record. -/
theorem processPaymentOrder_none {order : ModernTreasuryPaymentOrder}
    (payrollRunId : String) (fetchACHTransfer : String → IncreaseACHTransfer)
    (h : extractACHTransferId order = none) :
    processPaymentOrder payrollRunId fetchACHTransfer order = [] := by
  unfold processPaymentOrder
  rw [h]
  simp [jsTruthy]

/-- `find?` over a list that starts with non-matching elements followed by a
matching one returns that first matching element. -/
theorem find?_first_match {α : Type} (p : α → Bool) (l1 l2 : List α) (x : α)
    (h1 : ∀ r ∈ l1, p r = false) (hx : p x = true) :
    (l1 ++ x :: l2).find? p = some x := by
  induction l1 with
  | nil => simp [List.find?_cons, hx]
  | cons a l ih =>
      have ha : p a = false := h1 a (by simp)
      simpa [List.find?_cons, ha] using ih (fun r hr => h1 r (by simp [hr]))

/-! ## Claim theorems -/

/-- Example payment reference carrying an ACH transfer id. -/
def egTransferRef : PaymentReference :=
  { id := "prn_1"
    object := "reference_number"
    live_mode := false
    reference_number := "ach_transfer_123"
    reference_number_type := "bnk_dev_transfer_id"
    referenceable_id := "po_1"
    referenceable_type := "payment_order"
    created_at := "2024-01-01"
    updated_at := "2024-01-01" }

/-- Example payment order with a transfer-id reference. -/
def egOrderWithRef : ModernTreasuryPaymentOrder :=
  { id := "po_1"
    object := "payment_order"
    live_mode := false
    type := "ach"
    amount := 2500
    direction := "credit"
    effective_date := "2024-02-01"
    reference_numbers := [egTransferRef] }

/-- Example payment order with no reference entries at all. -/
def egOrderNoRef : ModernTreasuryPaymentOrder :=
  { id := "po_2"
    object := "payment_order"
    live_mode := false
    type := "ach"
    amount := 900
    direction := "credit"
    effective_date := "2024-02-01"
    reference_numbers := [] }

/-- Example payment-order fetch: two orders, only the first of which has a
transfer-id reference. -/
def egFetchPaymentOrders : String → List ModernTreasuryPaymentOrder :=
  fun _ => [egOrderWithRef, egOrderNoRef]

/-- Example ACH-transfer fetch. -/
def egFetchACHTransfer : String → IncreaseACHTransfer :=
  fun achTransferId => { id := achTransferId, amount := 2500, transaction_id := "txn_987" }

/-- C1: for every payroll-run key, each fetched payment order with a
transfer-id reference contributes exactly one record, its amount and
effective date copied verbatim from the payment order and its transaction
id taken from the secondary ACH-transfer fetch; a run whose two fetched
payment orders include exactly one such order produces exactly one
record. -/
theorem increase_one_record_per_transfer :
    (∀ (payrollRunId : String) (fetchACHTransfer : String → IncreaseACHTransfer)
       (order : ModernTreasuryPaymentOrder) (achTransferId : String),
       extractACHTransferId order = some achTransferId →
       processPaymentOrder payrollRunId fetchACHTransfer order =
         [{ payroll_run_id := payrollRunId
            direction := order.direction
            effective_date := order.effective_date
            amount := order.amount
            transaction_id := (fetchACHTransfer achTransferId).transaction_id }])
    ∧ (∀ (payrollRunId : String)
       (fetchPaymentOrders : String → List ModernTreasuryPaymentOrder)
       (fetchACHTransfer : String → IncreaseACHTransfer)
       (o1 o2 : ModernTreasuryPaymentOrder) (achTransferId : String),
       fetchPaymentOrders payrollRunId = [o1, o2] →
       extractACHTransferId o1 = some achTransferId →
       extractACHTransferId o2 = none →
       (getIncreaseTransactionsRecords [payrollRunId] fetchPaymentOrders
          fetchACHTransfer).length = 1) := by
  constructor
  · intro payrollRunId fetchACHTransfer order achTransferId h
    exact processPaymentOrder_some payrollRunId fetchACHTransfer h
  · intro payrollRunId fetchPaymentOrders fetchACHTransfer o1 o2 achTransferId hPO h1 h2
    simp [getIncreaseTransactionsRecords, hPO,
      processPaymentOrder_some payrollRunId fetchACHTransfer h1,
      processPaymentOrder_none payrollRunId fetchACHTransfer h2]

/-- Witness for C1 on the two-order scenario. -/
theorem increase_one_record_per_transfer_witness :
    (getIncreaseTransactionsRecords ["payrun_1"] egFetchPaymentOrders
       egFetchACHTransfer).length = 1 :=
  increase_one_record_per_transfer.2 "payrun_1" egFetchPaymentOrders
    egFetchACHTransfer egOrderWithRef egOrderNoRef "ach_transfer_123"
    rfl (by decide) (by decide)

/-- A transfer-id reference entry whose `reference_number` is the empty
string. -/
def emptyNumberTransferRef : PaymentReference :=
  { id := "prn_2"
    object := "reference_number"
    live_mode := false
    reference_number := ""
    reference_number_type := "bnk_dev_transfer_id"
    referenceable_id := "po_3"
    referenceable_type := "payment_order"
    created_at := "2024-01-01"
    updated_at := "2024-01-01" }

/-- A payment order whose only (and hence first) transfer-id reference entry
has an empty `reference_number`. -/
def emptyNumberOrder : ModernTreasuryPaymentOrder :=
  { id := "po_3"
    object := "payment_order"
    live_mode := false
    type := "ach"
    amount := 100
    direction := "credit"
    effective_date := "2024-02-01"
    reference_numbers := [emptyNumberTransferRef] }

/-- C2 counterexample: `emptyNumberOrder` has a first matching reference
entry whose `reference_number` is `""`, yet `extractACHTransferId` returns
`none` rather than that reference number — the JS `|| null` coerces the
empty string to `null`, so the claim as stated fails at this input. -/
theorem extractACHTransferId_empty_reference_counterexample :
    (emptyNumberOrder.reference_numbers.find?
        (fun ref => ref.reference_number_type == "bnk_dev_transfer_id")).map
      (fun ref => ref.reference_number) = some ""
    ∧ extractACHTransferId emptyNumberOrder ≠ some ""
    ∧ extractACHTransferId emptyNumberOrder = none := by
  decide

/-- C2 (amended): the derivation is a pure function of the primary record
that returns `none` when no reference entry matches; when the first
matching entry has a non-empty `reference_number` it returns that number,
and when it is empty it returns `none` (JS `|| null`); and a record whose
derivation is `none` produces zero output records (skip, not error). -/
theorem extractACHTransferId_first_match :
    (∀ order : ModernTreasuryPaymentOrder,
       (∀ ref ∈ order.reference_numbers, ref.reference_number_type ≠ "bnk_dev_transfer_id") →
       extractACHTransferId order = none)
    ∧ (∀ (order : ModernTreasuryPaymentOrder) (l1 l2 : List PaymentReference)
       (ref : PaymentReference),
       order.reference_numbers = l1 ++ ref :: l2 →
       (∀ r ∈ l1, r.reference_number_type ≠ "bnk_dev_transfer_id") →
       ref.reference_number_type = "bnk_dev_transfer_id" →
       extractACHTransferId order =
         (if ref.reference_number = "" then none else some ref.reference_number))
    ∧ (∀ (payrollRunId : String) (fetchACHTransfer : String → IncreaseACHTransfer)
       (order : ModernTreasuryPaymentOrder),
       extractACHTransferId order = none →
       processPaymentOrder payrollRunId fetchACHTransfer order = []) := by
  refine ⟨?_, ?_, ?_⟩
  · intro order h
    have hf : order.reference_numbers.find?
        (fun ref => ref.reference_number_type == "bnk_dev_transfer_id") = none := by
      rw [List.find?_eq_none]
      intro x hx
      simpa using h x hx
    unfold extractACHTransferId
    rw [hf]
  · intro order l1 l2 ref hsplit h1 href
    have hf : order.reference_numbers.find?
        (fun r => r.reference_number_type == "bnk_dev_transfer_id") = some ref := by
      rw [hsplit]
      exact find?_first_match _ l1 l2 ref (fun r hr => by simpa using h1 r hr)
        (by simpa using href)
    unfold extractACHTransferId
    rw [hf]
  · intro payrollRunId fetchACHTransfer order h
    exact processPaymentOrder_none payrollRunId fetchACHTransfer h

/-- Witness for the amended C2, at the empty-reference-number order and at a
referenceless order. -/
theorem extractACHTransferId_first_match_witness :
    extractACHTransferId emptyNumberOrder =
      (if ("" : String) = "" then none else some "")
    ∧ processPaymentOrder "payrun_1" egFetchACHTransfer egOrderNoRef = [] :=
  ⟨extractACHTransferId_first_match.2.1 emptyNumberOrder [] [] emptyNumberTransferRef
      rfl (by simp) (by decide),
   extractACHTransferId_first_match.2.2 "payrun_1" egFetchACHTransfer egOrderNoRef
      (by decide)⟩

/-- Example employer entity whose `filingAddress` is absent. -/
def noAddressEmployerObj : EmployerObj :=
  { id := "er_1"
    businessName := "Acme Payroll"
    legalName := "Acme Payroll LLC"
    taxesSetupByJurisdiction := []
    filingAddress := none }

/-- A GraphQL oracle that always returns the employer without a filing
address. -/
def noAddressExec : String → Except JsError EmployerApiResponse :=
  fun _ => .ok { employer := some noAddressEmployerObj }

/-- C3 (code-bug exhibit): when the employer's filing address is absent,
`formatAddress` returns an object with no `addressLine2` at all and
`getEmployerInfo` pushes the record with `address_line2` undefined
(modelled as `none`) — not the empty string — so the written file contains
a record with an unpopulated schema field, contradicting the invariant. -/
theorem getEmployerInfo_address_line2_undefined :
    getEmployerInfo ["er_1"] noAddressExec =
      { fileWritten := some
          [{ employer_id := "er_1"
             business_name := "Acme Payroll"
             ein := ""
             address_line1 := ""
             address_line2 := none
             city := ""
             state := ""
             postal_code := "" }]
        raisedError := none }
    ∧ some (none : Option String) ≠ some (some "") := by
  constructor
  · decide
  · decide

/-- A GraphQL oracle for an employer id with no matching entity: the runtime
response is `{ employer: null }`. -/
def missingEmployerExec : String → Except JsError EmployerApiResponse :=
  fun _ => .ok { employer := none }

/-- C7 counterexample: when the entity adapter finds no employer, the
pipeline aborts with a runtime `TypeError` from dereferencing the `null`
employer — not with an explicitly raised "not found"
(`SourceDataInvalid`-style) error, which would be a thrown `Error`
(`JsError.error`) as in `fetchWorkerById`.  No file is written either
way. -/
theorem employer_not_found_typeerror_counterexample :
    getEmployerInfo ["er_missing"] missingEmployerExec =
      { fileWritten := none
        raisedError := some (.typeError "Cannot read properties of null") }
    ∧ ∀ msg : String,
        JsError.typeError "Cannot read properties of null" ≠ JsError.error msg := by
  refine ⟨by decide, ?_⟩
  intro msg h
  exact JsError.noConfusion h

/-- C7 (amended): when the employer lookup finds no matching entity for the
given id, `getEmployerInfo` aborts with a runtime `TypeError` (a null
dereference, not an explicit not-found error) and writes no output file,
not even a partial one. -/
theorem getEmployerInfo_missing_employer_aborts
    (exec : String → Except JsError EmployerApiResponse) (employerId : String)
    (rest : List String)
    (h : exec employerId = .ok { employer := none }) :
    getEmployerInfo (employerId :: rest) exec =
      { fileWritten := none
        raisedError := some (.typeError "Cannot read properties of null") } := by
  unfold getEmployerInfo getEmployerInfoRecords
  rw [h]
  simp [fetchEmployerById]

/-- Witness for the amended C7. -/
theorem getEmployerInfo_missing_employer_aborts_witness :
    getEmployerInfo ["er_missing"] missingEmployerExec =
      { fileWritten := none
        raisedError := some (.typeError "Cannot read properties of null") } :=
  getEmployerInfo_missing_employer_aborts missingEmployerExec "er_missing" [] rfl

/-- Every record produced for one payroll-run key carries that key as its
`payroll_run_id`. -/
theorem processPaymentOrder_run_id (payrollRunId : String)
    (fetchACHTransfer : String → IncreaseACHTransfer)
    (order : ModernTreasuryPaymentOrder) :
    ∀ r ∈ processPaymentOrder payrollRunId fetchACHTransfer order,
      r.payroll_run_id = payrollRunId := by
  intro r hr
  unfold processPaymentOrder at hr
  by_cases h : jsTruthy (extractACHTransferId order) = true
  · simp [h] at hr
    rw [hr]
  · simp [Bool.eq_false_iff.mpr (fun hc => h hc)] at hr

/-- The records a single key contributes all carry that key, so their
`payroll_run_id` projection is a constant list. -/
theorem flatMap_run_id_replicate (payrollRunId : String)
    (fetchACHTransfer : String → IncreaseACHTransfer)
    (orders : List ModernTreasuryPaymentOrder) :
    ((orders.flatMap (processPaymentOrder payrollRunId fetchACHTransfer)).map
        (·.payroll_run_id)) =
      List.replicate
        (orders.flatMap (processPaymentOrder payrollRunId fetchACHTransfer)).length
        payrollRunId := by
  have h1 : ∀ b ∈ ((orders.flatMap (processPaymentOrder payrollRunId fetchACHTransfer)).map
      (·.payroll_run_id)), b = payrollRunId := by
    intro b hb
    rw [List.mem_map] at hb
    obtain ⟨r, hr, hb⟩ := hb
    rw [List.mem_flatMap] at hr
    obtain ⟨order, _, hr⟩ := hr
    rw [← hb]
    exact processPaymentOrder_run_id payrollRunId fetchACHTransfer order r hr
  calc ((orders.flatMap (processPaymentOrder payrollRunId fetchACHTransfer)).map
      (·.payroll_run_id))
      = List.replicate ((orders.flatMap
          (processPaymentOrder payrollRunId fetchACHTransfer)).map
            (·.payroll_run_id)).length payrollRunId := List.eq_replicate_of_mem h1
    _ = List.replicate
          (orders.flatMap (processPaymentOrder payrollRunId fetchACHTransfer)).length
          payrollRunId := by rw [List.length_map]

/-- C9: the pipeline is deterministic — two runs against extensionally equal
adapter responses accumulate identical record sequences and hence identical
CSV output — and records appear grouped by payroll-run key in input key
order. -/
theorem getIncreaseTransactions_deterministic
    (payrollRunIds : List String)
    (fetchPaymentOrders fetchPaymentOrders2 : String → List ModernTreasuryPaymentOrder)
    (fetchACHTransfer fetchACHTransfer2 : String → IncreaseACHTransfer)
    (hPO : ∀ k, fetchPaymentOrders k = fetchPaymentOrders2 k)
    (hACH : ∀ t, fetchACHTransfer t = fetchACHTransfer2 t) :
    getIncreaseTransactionsRecords payrollRunIds fetchPaymentOrders fetchACHTransfer =
      getIncreaseTransactionsRecords payrollRunIds fetchPaymentOrders2 fetchACHTransfer2
    ∧ renderIncreaseCsv
        (getIncreaseTransactionsRecords payrollRunIds fetchPaymentOrders fetchACHTransfer) =
      renderIncreaseCsv
        (getIncreaseTransactionsRecords payrollRunIds fetchPaymentOrders2 fetchACHTransfer2)
    ∧ (getIncreaseTransactionsRecords payrollRunIds fetchPaymentOrders
          fetchACHTransfer).map (·.payroll_run_id) =
      payrollRunIds.flatMap (fun k =>
        List.replicate
          ((fetchPaymentOrders k).flatMap (processPaymentOrder k fetchACHTransfer)).length
          k) := by
  have hPO2 : fetchPaymentOrders = fetchPaymentOrders2 := funext hPO
  have hACH2 : fetchACHTransfer = fetchACHTransfer2 := funext hACH
  subst hPO2 hACH2
  refine ⟨rfl, rfl, ?_⟩
  unfold getIncreaseTransactionsRecords
  rw [List.map_flatMap]
  congr 1
  funext k
  exact flatMap_run_id_replicate k fetchACHTransfer (fetchPaymentOrders k)

/-- A syntactically different but extensionally equal payment-order fetch. -/
def egFetchPaymentOrdersCopy : String → List ModernTreasuryPaymentOrder :=
  fun payrollRunId => egFetchPaymentOrders payrollRunId ++ []

/-- Witness for C9 on the concrete two-order run. -/
theorem getIncreaseTransactions_deterministic_witness :
    getIncreaseTransactionsRecords ["payrun_1"] egFetchPaymentOrders egFetchACHTransfer =
      getIncreaseTransactionsRecords ["payrun_1"] egFetchPaymentOrdersCopy egFetchACHTransfer
    ∧ renderIncreaseCsv
        (getIncreaseTransactionsRecords ["payrun_1"] egFetchPaymentOrders egFetchACHTransfer) =
      renderIncreaseCsv
        (getIncreaseTransactionsRecords ["payrun_1"] egFetchPaymentOrdersCopy egFetchACHTransfer)
    ∧ (getIncreaseTransactionsRecords ["payrun_1"] egFetchPaymentOrders
          egFetchACHTransfer).map (·.payroll_run_id) =
      ["payrun_1"].flatMap (fun k =>
        List.replicate
          ((egFetchPaymentOrders k).flatMap (processPaymentOrder k egFetchACHTransfer)).length
          k) :=
  getIncreaseTransactions_deterministic ["payrun_1"] egFetchPaymentOrders
    egFetchPaymentOrdersCopy egFetchACHTransfer egFetchACHTransfer
    (fun k => by simp [egFetchPaymentOrdersCopy]) (fun _ => rfl)

/-- Example authorizer record for the first bank account. -/
def egAuthorizer1 : AuthorizerInfo :=
  { entityId := "eba_1"
    authorizerFirstName := "Jane"
    authorizerLastName := "Doe"
    authorizerEmail := "jane@acme.com"
    clientIpAddress := "10.0.0.1" }

/-- Example bank account with authorizer data. -/
def egAccount1 : EmployerBankAccount :=
  { id := "eba_1"
    employerId := "er_1"
    bankName := "First Bank"
    accountNumber := "000111"
    routingNumber := "021000021"
    partyName := "Acme Payroll"
    createdDate := "2024-01-01"
    isDeleted := false }

/-- Example bank account without authorizer data. -/
def egAccount2 : EmployerBankAccount :=
  { id := "eba_2"
    employerId := "er_1"
    bankName := "Second Bank"
    accountNumber := "000222"
    routingNumber := "021000022"
    partyName := "Acme Payroll"
    createdDate := "2024-01-02"
    isDeleted := false }

/-- Example deleted bank account without authorizer data. -/
def egAccount3 : EmployerBankAccount :=
  { id := "eba_3"
    employerId := "er_1"
    bankName := "Third Bank"
    accountNumber := "000333"
    routingNumber := "021000023"
    partyName := "Acme Payroll"
    createdDate := "2024-01-03"
    isDeleted := true }

/-- Example bank-account fetch returning three accounts. -/
def egFetchBank : String → Except JsError (List EmployerBankAccount) :=
  fun _ => .ok [egAccount1, egAccount2, egAccount3]

/-- Example batch authorizer query with data for only the first account. -/
def egBatchQuery : List String → Except JsError (List AuthorizerInfo) :=
  fun _ => .ok [egAuthorizer1]

/-- C4: the per-employer bulk authorizer lookup produces one output row per
fetched bank account, and an account absent from the authorizer map gets
the literal string `"null"` — not the empty string — in all four authorizer
fields. -/
theorem employer_bank_row_per_account_null_sentinel :
    (∀ (fetchBank : String → Except JsError (List EmployerBankAccount))
       (batchQuery : List String → Except JsError (List AuthorizerInfo))
       (employerId : String) (bankAccounts : List EmployerBankAccount),
       fetchBank employerId = .ok bankAccounts →
       (processEmployerBankAccounts fetchBank batchQuery employerId).length =
         bankAccounts.length)
    ∧ (∀ (m : AuthorizerMap) (account : EmployerBankAccount),
       mapHas m account.id = false →
       (processBankAccount m account).authorizer_first_name = "null"
       ∧ (processBankAccount m account).authorizer_last_name = "null"
       ∧ (processBankAccount m account).authorizer_email = "null"
       ∧ (processBankAccount m account).client_ip = "null") := by
  constructor
  · intro fetchBank batchQuery employerId bankAccounts h
    unfold processEmployerBankAccounts
    rw [h]
    by_cases hlen : bankAccounts.length = 0
    · simp [hlen]
    · simp [hlen]
  · intro m account h
    unfold processBankAccount
    simp [h, jsOr]

/-- Witness for C4 on the three-account scenario (only `eba_1` has
authorizer data). -/
theorem employer_bank_row_per_account_witness :
    (processEmployerBankAccounts egFetchBank egBatchQuery "er_1").length = 3
    ∧ (processBankAccount (buildAuthorizerMap [egAuthorizer1]) egAccount2).authorizer_first_name = "null"
    ∧ (processBankAccount (buildAuthorizerMap [egAuthorizer1]) egAccount3).client_ip = "null" :=
  ⟨employer_bank_row_per_account_null_sentinel.1 egFetchBank egBatchQuery "er_1"
      [egAccount1, egAccount2, egAccount3] rfl,
   (employer_bank_row_per_account_null_sentinel.2 (buildAuthorizerMap [egAuthorizer1])
      egAccount2 (by decide)).1,
   (employer_bank_row_per_account_null_sentinel.2 (buildAuthorizerMap [egAuthorizer1])
      egAccount3 (by decide)).2.2.2⟩

/-- C5: when the underlying Neo4j query fails, the batch variant returns an
empty map and the single-key variant returns `null`; both catch the error
instead of propagating it (their return types are total — no error
escapes). -/
theorem authorizer_lookup_failure_degrades (e : JsError) :
    (∀ employerBankAccountIds : List String,
       fetchAuthorizerInfoBatch employerBankAccountIds (.error e) = [])
    ∧ fetchAuthorizerInfo (.error e) = none := by
  constructor
  · intro employerBankAccountIds
    by_cases h : employerBankAccountIds.length = 0 <;>
      simp [fetchAuthorizerInfoBatch, h]
  · rfl

/-- An authorizer record returned by the query whose `entityId` is not among
the requested ids. -/
def strayAuthorizer : AuthorizerInfo :=
  { entityId := "eba_stray"
    authorizerFirstName := "Sam"
    authorizerLastName := "Smith"
    authorizerEmail := "sam@other.com"
    clientIpAddress := "10.0.0.9" }

/-- C6 counterexample: the code keys the batch map by whatever `entityId`s
the query returned, with no re-filtering against the input ids, so a stray
query record puts a key outside the input id set into the map. -/
theorem fetchAuthorizerInfoBatch_subset_counterexample :
    mapKeys (fetchAuthorizerInfoBatch ["eba_1"] (.ok [strayAuthorizer])) = ["eba_stray"]
    ∧ "eba_stray" ∉ ["eba_1"] := by
  decide

/-- Every key of `mapSet m k v` is `k` or a key of `m`. -/
theorem mapKeys_mapSet (m : AuthorizerMap) (k : String) (v : AuthorizerInfo) :
    ∀ key ∈ mapKeys (mapSet m k v), key = k ∨ key ∈ mapKeys m := by
  induction m with
  | nil =>
      intro key h
      simp [mapSet, mapKeys] at h
      left; exact h
  | cons p rest ih =>
      obtain ⟨k', v'⟩ := p
      intro key h
      by_cases hp : k' = k
      · simp [mapSet, hp, mapKeys] at h ⊢
        tauto
      · simp [mapSet, hp, mapKeys] at h ⊢
        rcases h with h | h
        · tauto
        · rcases ih key (by simpa [mapKeys] using h) with h2 | h2
          · tauto
          · simp [mapKeys] at h2
            tauto

/-- Every key of the map built by the batch loop comes from the `entityId`
of some query-result record (or was already in the accumulator). -/
theorem mapKeys_foldl_insertAuthorizer (results : List AuthorizerInfo) :
    ∀ m : AuthorizerMap, ∀ key ∈ mapKeys (results.foldl insertAuthorizer m),
      key ∈ mapKeys m ∨ ∃ r ∈ results, r.entityId = key := by
  induction results with
  | nil =>
      intro m key h
      left
      simpa using h
  | cons a rest ih =>
      intro m key h
      rw [List.foldl_cons] at h
      rcases ih (insertAuthorizer m a) key h with h2 | h2
      · unfold insertAuthorizer at h2
        by_cases ha : a.entityId != ""
        · rw [if_pos ha] at h2
          rcases mapKeys_mapSet m a.entityId a key h2 with h3 | h3
          · right; exact ⟨a, by simp, h3.symm⟩
          · left; exact h3
        · rw [if_neg ha] at h2
          left; exact h2
      · right
        obtain ⟨r, hr, he⟩ := h2
        exact ⟨r, by simp [hr], he⟩

/-- C6 (amended): every key of the batch-lookup result map is the (truthy)
`entityId` of some record the underlying query returned; consequently,
whenever the query honours its `WHERE eba.entityId IN $ids` filter — i.e.
every returned record's `entityId` is among the input ids — the key set of
the returned map is a subset of the input id set.  The code itself performs
no re-filtering, so the subset property is conditional on the query. -/
theorem fetchAuthorizerInfoBatch_keys (employerBankAccountIds : List String)
    (results : List AuthorizerInfo) :
    (∀ key ∈ mapKeys (fetchAuthorizerInfoBatch employerBankAccountIds (.ok results)),
       ∃ r ∈ results, r.entityId = key)
    ∧ ((∀ r ∈ results, r.entityId ∈ employerBankAccountIds) →
       ∀ key ∈ mapKeys (fetchAuthorizerInfoBatch employerBankAccountIds (.ok results)),
         key ∈ employerBankAccountIds) := by
  have hmain : ∀ key ∈ mapKeys (fetchAuthorizerInfoBatch employerBankAccountIds (.ok results)),
      ∃ r ∈ results, r.entityId = key := by
    intro key h
    unfold fetchAuthorizerInfoBatch at h
    by_cases hids : employerBankAccountIds.length = 0
    · rw [if_pos hids] at h
      simp [mapKeys] at h
    · rw [if_neg hids] at h
      rcases mapKeys_foldl_insertAuthorizer results [] key h with h2 | h2
      · simp [mapKeys] at h2
      · exact h2
  refine ⟨hmain, ?_⟩
  intro hin key h
  obtain ⟨r, hr, he⟩ := hmain key h
  rw [← he]
  exact hin r hr

/-- Witness for the amended C6: with ids `["eba_1", "eba_2"]` and a query
result honouring the filter, the key `"eba_1"` of the result map lies in
the input id set. -/
theorem fetchAuthorizerInfoBatch_keys_witness :
    "eba_1" ∈ ["eba_1", "eba_2"] :=
  (fetchAuthorizerInfoBatch_keys ["eba_1", "eba_2"] [egAuthorizer1]).2
    (by decide) "eba_1" (by decide)

/-- C8: with the required credential absent from the configuration, each of
the three adapters fails with its configuration error and performs zero
network calls (the call counter stays 0): `INCREASE_API_KEY` for the
Increase fetch, `SALSA_AUTH_TOKEN` for the Salsa GraphQL query, and
`NEO4J_PASSWORD` for a Neo4j query on a fresh (uninitialized) driver. -/
theorem missing_credential_fails_before_network :
    (∀ net : Except JsError IncreaseACHTransfer,
       fetchACHTransferChecked none net =
         (.error (.error "INCREASE_API_KEY environment variable is required"), 0))
    ∧ (∀ net : Except JsError (SalsaGraphQLResponse EmployerApiResponse),
       executeGraphQLQueryChecked EmployerApiResponse none net =
         (.error (.error "SALSA_API_KEY environment variable is required"), 0))
    ∧ (∀ (uriEnv usernameEnv : Option String)
       (net : Except JsError (List AuthorizerInfo)),
       executeNeo4jQueryChecked AuthorizerInfo none uriEnv usernameEnv none net =
         (.error (.error "NEO4J_PASSWORD environment variable is required"), 0)) := by
  refine ⟨fun net => rfl, fun net => rfl, fun uriEnv usernameEnv net => rfl⟩

/-- A bank-account fetch that fails for every employer. -/
def egFailFetchBank : String → Except JsError (List EmployerBankAccount) :=
  fun _ => .error (.error "connection refused")

/-- C10: a run that accumulates zero output records returns before creating
its CSV writer — no file, not even a header-only one, is produced — and the
`finally` block still closes the Neo4j connection; likewise
`getWorkerBankInfo` with an empty fetch result returns early with no file
and a closed connection. -/
theorem empty_run_no_file_connection_closed
    (employerIds : List String)
    (fetchBank : String → Except JsError (List EmployerBankAccount))
    (batchQuery : List String → Except JsError (List AuthorizerInfo))
    (h : employerIds.flatMap (processEmployerBankAccounts fetchBank batchQuery) = []) :
    getEmployerBankInfo employerIds fetchBank batchQuery =
      { fileWritten := none, connectionClosed := true }
    ∧ getWorkerBankInfo (.ok []) =
      { fileWritten := none, connectionClosed := true, raisedError := none } := by
  constructor
  · simp [getEmployerBankInfo, h]
  · rfl

/-- Witness for C10: every per-employer fetch fails, so zero records
accumulate. -/
theorem empty_run_no_file_connection_closed_witness :
    getEmployerBankInfo ["er_1"] egFailFetchBank egBatchQuery =
      { fileWritten := none, connectionClosed := true }
    ∧ getWorkerBankInfo (.ok []) =
      { fileWritten := none, connectionClosed := true, raisedError := none } :=
  empty_run_no_file_connection_closed ["er_1"] egFailFetchBank egBatchQuery (by decide)

end UarDataFetcher
